import Mathlib

/-
Verification of the pruning, selection, naming, sizing and download logic of
create-android-ndk.py, a script that downloads an Android NDK archive,
deletes every component not needed for one build configuration, and
repackages the remainder.

The filesystem is modelled shallowly: a directory listing is a list of
entries, each carrying its name and whether it is a directory.  Each prune
loop of the script is translated into a recursive function over the listing
that returns either an error (mirroring the sys.exit calls and the exception
shutil.rmtree raises on a plain file) or the surviving listing.
-/

set_option autoImplicit false

namespace AndroidNdk

/-- One entry of a directory listing as returned by os.listdir, together
with its os.path.isdir status. -/
structure Entry where
  name : String
  isDir : Bool
deriving DecidableEq, Repr

/-- The ways a prune loop can abort: sys.exit("... not found"),
sys.exit("Already found"), or the NotADirectoryError that shutil.rmtree
raises when asked to remove a plain file. -/
inductive PruneError where
  | notFound
  | alreadyFound
  | rmtreeNotADir (name : String)
deriving DecidableEq, Repr

/-- The toolchain loop (lines 278-298) and the STL loop (lines 302-322)
of create-android-ndk.py share this shape: for each entry x, compute
removeDir (false when x equals keep or the exemption predicate holds);
if removeDir, shutil.rmtree x (which fails on a plain file); otherwise
keep x, and when x equals keep check the found flag for duplicates.
Returns the final found flag and the surviving listing. -/
def rmtreeExemptLoop (keep : String) (exempt : String → Bool) :
    List Entry → Bool → Except PruneError (Bool × List Entry)
  | [], found => .ok (found, [])
  | x :: xs, found =>
    let setFound := x.name == keep
    let removeDir := !setFound && !(exempt x.name)
    if removeDir then
      if x.isDir then
        rmtreeExemptLoop keep exempt xs found
      else
        .error (.rmtreeNotADir x.name)
    else
      if setFound && found then
        .error .alreadyFound
      else
        match rmtreeExemptLoop keep exempt xs (found || setFound) with
        | .error e => .error e
        | .ok (f, rest) => .ok (f, x :: rest)

/-- The check shared by every prune loop after iteration finishes
(lines 297-298, 321-322, 350-351, 376-377, 401-402, 429-430): when the
kept entry was never observed the script does sys.exit, otherwise the
surviving listing stands. -/
def finishPrune (r : Except PruneError (Bool × List Entry)) :
    Except PruneError (List Entry) :=
  match r with
  | .error e => .error e
  | .ok (found, kept) => if found then .ok kept else .error .notFound

/-- Lines 278-300: remove unused toolchains.  The llvm directory is exempt
when the compiler-version flag equals clang. -/
def toolchainPrune (compiler_version : Option String) (toolchain : String)
    (toolchains_list : List Entry) : Except PruneError (List Entry) :=
  finishPrune (rmtreeExemptLoop toolchain
    (fun x => compiler_version == some "clang" && x == "llvm")
    toolchains_list false)

/-- Lines 302-322: remove unused STL directories.  The llvm-libc++abi
directory is exempt when the chosen STL suffix is llvm-libc++. -/
def stlPrune (stl_suffix : String) (stl_list : List Entry) :
    Except PruneError (List Entry) :=
  finishPrune (rmtreeExemptLoop stl_suffix
    (fun x => stl_suffix == "llvm-libc++" && x == "llvm-libc++abi")
    stl_list false)

/-- Lines 336-349: remove unused compiler versions inside gnu-libstdc++.
The match test comes first; a non-matching entry that is not a directory
is skipped (continue), so plain files survive. -/
def gccVersionLoop (gcc_version : String) :
    List Entry → Bool → Except PruneError (Bool × List Entry)
  | [], found => .ok (found, [])
  | x :: xs, found =>
    if x.name == gcc_version then
      if found then
        .error .alreadyFound
      else
        match gccVersionLoop gcc_version xs true with
        | .error e => .error e
        | .ok (f, rest) => .ok (f, x :: rest)
    else if !x.isDir then
      match gccVersionLoop gcc_version xs found with
      | .error e => .error e
      | .ok (f, rest) => .ok (f, x :: rest)
    else
      gccVersionLoop gcc_version xs found

/-- Lines 336-351 wrapper: sys.exit("Not found") when the version was
never observed. -/
def gccVersionPrune (gcc_version : String) (versions_list : List Entry) :
    Except PruneError (List Entry) :=
  finishPrune (gccVersionLoop gcc_version versions_list false)

/-- Lines 364-377: remove unused ABI directories.  Every non-matching
entry goes to shutil.rmtree, which fails on a plain file. -/
def abiLoop (abi_name : String) :
    List Entry → Bool → Except PruneError (Bool × List Entry)
  | [], found => .ok (found, [])
  | x :: xs, found =>
    if x.name == abi_name then
      if found then
        .error .alreadyFound
      else
        match abiLoop abi_name xs true with
        | .error e => .error e
        | .ok (f, rest) => .ok (f, x :: rest)
    else if x.isDir then
      abiLoop abi_name xs found
    else
      .error (.rmtreeNotADir x.name)

/-- Lines 364-377 wrapper. -/
def abiPrune (abi_name : String) (abi_list : List Entry) :
    Except PruneError (List Entry) :=
  finishPrune (abiLoop abi_name abi_list false)

/-- Lines 387-402: remove unused API directories.  The isdir test comes
before the match test, so a plain file is skipped (and survives) even if
its name equals the kept API. -/
def apiLoop (android_api : String) :
    List Entry → Bool → Except PruneError (Bool × List Entry)
  | [], found => .ok (found, [])
  | x :: xs, found =>
    if !x.isDir then
      match apiLoop android_api xs found with
      | .error e => .error e
      | .ok (f, rest) => .ok (f, x :: rest)
    else if x.name == android_api then
      if found then
        .error .alreadyFound
      else
        match apiLoop android_api xs true with
        | .error e => .error e
        | .ok (f, rest) => .ok (f, x :: rest)
    else
      apiLoop android_api xs found

/-- Lines 387-402 wrapper: sys.exit("API not found"). -/
def apiPrune (android_api : String) (api_list : List Entry) :
    Except PruneError (List Entry) :=
  finishPrune (apiLoop android_api api_list false)

/-- Lines 415-430: remove unused architectures.  A non-matching entry is
removed with shutil.rmtree when it is a directory and with os.remove when
it is a plain file, so removal never fails. -/
def archLoop (android_arch : String) :
    List Entry → Bool → Except PruneError (Bool × List Entry)
  | [], found => .ok (found, [])
  | x :: xs, found =>
    if x.name == android_arch then
      if found then
        .error .alreadyFound
      else
        match archLoop android_arch xs true with
        | .error e => .error e
        | .ok (f, rest) => .ok (f, x :: rest)
    else
      archLoop android_arch xs found

/-- Lines 415-430 wrapper: sys.exit("Not found"). -/
def archPrune (android_arch : String) (arch_list : List Entry) :
    Except PruneError (List Entry) :=
  finishPrune (archLoop android_arch arch_list false)

/-- Number of listing entries whose name equals the kept selector. -/
def keepCount (keep : String) (l : List Entry) : Nat :=
  l.countP (fun x => x.name == keep)

/-- Number of entries the API loop can actually observe as the kept one:
its isdir test runs before its name test, so only directories count. -/
def apiMatchCount (keep : String) (l : List Entry) : Nat :=
  l.countP (fun x => x.isDir && x.name == keep)

/-- Error raised by stl_suffix_by_name on a name outside its table
(sys.exit at line 135). -/
inductive SelectorError where
  | unknownSelector (name : String)
deriving DecidableEq, Repr

/-- Lines 124-135: map the logical STL name given on the command line to
the on-disk directory name under sources/cxx-stl. -/
def stl_suffix_by_name (stl_name : String) : Except SelectorError String :=
  if stl_name == "system" || stl_name == "system_re" then .ok "system"
  else if stl_name == "gabi++_shared" || stl_name == "gabi++_static" then .ok "gabi++"
  else if stl_name == "stlport_shared" || stl_name == "stlport_static" then .ok "stlport"
  else if stl_name == "gnustl_shared" || stl_name == "gnustl_static" then .ok "gnu-libstdc++"
  else if stl_name == "c++_static" || stl_name == "c++_shared" then .ok "llvm-libc++"
  else .error (.unknownSelector stl_name)

/-- The ten logical STL names accepted by stl_suffix_by_name. -/
def stlNameTable : List String :=
  ["system", "system_re", "gabi++_shared", "gabi++_static",
   "stlport_shared", "stlport_static", "gnustl_shared", "gnustl_static",
   "c++_static", "c++_shared"]

/-- Lines 255-257: when the compiler-version flag equals clang, every
occurrence of -clang in the toolchain argument is replaced by -4.9;
otherwise the argument is used verbatim.  argparse leaves an unset flag
as None, modelled by Option. -/
def effectiveToolchain (compiler_version : Option String) (toolchain : String) : String :=
  if compiler_version == some "clang" then toolchain.replace "-clang" "-4.9"
  else toolchain

/-- Line 265: membership test of the (already substituted) toolchain in
the toolchains directory listing. -/
def toolchainListingTest (compiler_version : Option String) (arg_toolchain : String)
    (toolchains_list : List String) : Bool :=
  toolchains_list.contains (effectiveToolchain compiler_version arg_toolchain)

/-- Lines 197, 300, 324, 326, 353, 378, 380, 404, 406, 432-434: the name
of the output archive, built by successive applications of the format
string that joins two pieces with a dash.  The compiler version and ABI
pieces are inserted only when the STL suffix is gnu-libstdc++. -/
def outputArchiveName (ndk_version toolchain stl_suffix : String)
    (compiler_version abi_name api_level arch_name system : String) : String :=
  let name := "android-ndk-" ++ ndk_version
  let name := name ++ "-" ++ toolchain
  let name := name ++ "-" ++ stl_suffix
  let name :=
    if stl_suffix == "gnu-libstdc++" then
      (name ++ "-" ++ compiler_version) ++ "-" ++ abi_name
    else name
  let name := name ++ "-" ++ ("android-" ++ api_level)
  let name := name ++ "-" ++ ("arch-" ++ arch_name)
  let name := name ++ "-" ++ system
  name ++ ".tar.gz"

/-- Lines 31-41: pick the value and unit for a byte count.  Python divides
by the unit with true division; the exact quotient is modelled as a
rational. -/
def human_readable_size (size : Nat) : ℚ × String :=
  let kb : Nat := 1024
  let mb : Nat := 1024 * kb
  let gb : Nat := 1024 * mb
  if size < kb then ((size : ℚ), "B")
  else if size < mb then ((size : ℚ) / (kb : ℚ), "KB")
  else if size < gb then ((size : ℚ) / (mb : ℚ), "MB")
  else ((size : ℚ) / (gb : ℚ), "GB")

/-- Two decimal digits with a leading zero. -/
def pad2 (n : Nat) : String :=
  if n < 10 then "0" ++ toString n else toString n

/-- The fixed-point rendering done by the Python format specifier .2f:
round to hundredths and print with exactly two decimals.  All values the
script prints in the claims are exactly representable, so rounding mode
does not matter for them. -/
def formatFixed2 (q : ℚ) : String :=
  let cents : Int := Int.floor (q * 100 + 1 / 2)
  toString (cents / 100) ++ "." ++ pad2 (cents % 100).toNat

/-- Lines 43-45: render a byte count for display.  The source takes a
path and measures it first; the measurement is I/O and the byte count is
taken as the argument here. -/
def object_printable_size (size : Nat) : String :=
  let p := human_readable_size size
  formatFixed2 p.1 ++ " " ++ p.2

/-- Outcome of the pre-prune checks of one dimension: continue with warnings
printed so far, or terminate through sys.exit. -/
inductive CheckOutcome where
  | proceed (warnings : List String)
  | exited (message : String)
deriving DecidableEq, Repr

/-- Lines 261-266: existence of the toolchain directory only prints a
warning; the listing membership test is what can terminate the run. -/
def toolchainCheck (dirExists : Bool) (toolchain : String)
    (toolchains_list : List String) : CheckOutcome :=
  let warnings := if dirExists then [] else ["Toolchain not exists (set by --toolchain)"]
  if toolchains_list.contains toolchain then .proceed warnings
  else .exited "Toolchain is not in list"

/-- Lines 270-276: existence of the STL directory only prints a warning;
the listing membership test is what can terminate the run. -/
def stlCheck (dirExists : Bool) (stl_suffix : String)
    (stl_list : List String) : CheckOutcome :=
  let warnings := if dirExists then [] else ["STL not exists (set by --stl)"]
  if stl_list.contains stl_suffix then .proceed warnings
  else .exited "STL is not in list"

/-- Lines 330-335: a missing compiler-version directory terminates the run
at the existence check itself. -/
def gccVersionCheck (dirExists : Bool) (gcc_version : String)
    (versions_list : List String) : CheckOutcome :=
  if !dirExists then .exited "Directory not exists (--compiler-version)"
  else if versions_list.contains gcc_version then .proceed []
  else .exited "compiler version not found in listing"

/-- Lines 357-363: a missing ABI directory terminates the run at the
existence check itself. -/
def abiCheck (dirExists : Bool) (abi_name : String)
    (abi_list : List String) : CheckOutcome :=
  if !dirExists then .exited "Directory not exists (--abi-name)"
  else if abi_list.contains abi_name then .proceed []
  else .exited "ABI not found in listing"

/-- Lines 380-386: a missing API directory terminates the run at the
existence check itself. -/
def apiCheck (dirExists : Bool) (android_api : String)
    (api_list : List String) : CheckOutcome :=
  if !dirExists then .exited "Directory not found (--api-level)"
  else if api_list.contains android_api then .proceed []
  else .exited "API not found in listing"

/-- Lines 406-413: a missing architecture directory terminates the run at
the existence check itself. -/
def archCheck (dirExists : Bool) (android_arch : String)
    (arch_list : List String) : CheckOutcome :=
  if !dirExists then .exited "Directory not found (--arch-name)"
  else if arch_list.contains android_arch then .proceed []
  else .exited "architecture not found in listing"

/-- The local download target: either absent or holding some content. -/
structure DownloadState where
  localFile : Option String
deriving DecidableEq, Repr

/-- Lines 65-78: hash_match.  The SHA-1 function itself is external
(hashlib) and is passed in as an oracle on file contents. -/
def hash_match (sha1 : String → String) (expected : String)
    (st : DownloadState) : Bool :=
  match st.localFile with
  | none => false
  | some content => sha1 content == expected

/-- Lines 80-101: real_file_download retries up to the given bound; each
attempt either raises (none) or produces the downloaded content, which is
written to the local file.  Returns none when every attempt failed, in
which case the script does sys.exit("Download failed"). -/
def real_file_download (net : Nat → Option String) :
    Nat → Nat → Option DownloadState
  | _, 0 => none
  | i, retry + 1 =>
    match net i with
    | some content => some { localFile := some content }
    | none => real_file_download net (i + 1) retry

/-- Result of FileToDownload.download: the final state together with
whether the network was touched, or one of the two abnormal ends. -/
inductive DownloadOutcome where
  | ok (st : DownloadState) (networkAccessed : Bool)
  | exitDownloadFailed
  | assertionFailed
deriving DecidableEq, Repr

/-- Lines 57-63: download checks hash_match first; only on a mismatch does
it go to the network (max_retry equals 3), and afterwards asserts that the
hash matches. -/
def download (sha1 : String → String) (expected : String)
    (net : Nat → Option String) (st : DownloadState) : DownloadOutcome :=
  if hash_match sha1 expected st then
    .ok st false
  else
    match real_file_download net 0 3 with
    | none => .exitDownloadFailed
    | some st2 =>
      if hash_match sha1 expected st2 then .ok st2 true
      else .assertionFailed

/-- The closed enumeration accepted by the ndk-version flag
(lines 148-150). -/
def ndkVersionChoices : List String := ["r10e", "r11c", "r15c", "r16b"]

/-- Lines 200-216: URL and SHA-1 for a Darwin host; sys.exit("Unknown NDK
version") for any version without an entry, in particular r16b. -/
def get_darwin_info (ndk_version : String) : Except String (String × String) :=
  if ndk_version == "r10e" then
    .ok ("http://dl.google.com/android/ndk/android-ndk-r10e-darwin-x86_64.bin",
         "b57c2b9213251180dcab794352bfc9a241bf2557")
  else if ndk_version == "r11c" then
    .ok ("http://dl.google.com/android/repository/android-ndk-r11c-darwin-x86_64.zip",
         "4ce8e7ed8dfe08c5fe58aedf7f46be2a97564696")
  else if ndk_version == "r15c" then
    .ok ("https://dl.google.com/android/repository/android-ndk-r15c-darwin-x86_64.zip",
         "ea4b5d76475db84745aa8828000d009625fc1f98")
  else .error "Unknown NDK version"

/-- Lines 218-239: URL and SHA-1 for a Linux host; all four accepted
versions have entries. -/
def get_linux_info (ndk_version : String) : Except String (String × String) :=
  if ndk_version == "r10e" then
    .ok ("http://dl.google.com/android/ndk/android-ndk-r10e-linux-x86_64.bin",
         "c685e5f106f8daa9b5449d0a4f21ee8c0afcb2f6")
  else if ndk_version == "r11c" then
    .ok ("http://dl.google.com/android/repository/android-ndk-r11c-linux-x86_64.zip",
         "de5ce9bddeee16fb6af2b9117e9566352aa7e279")
  else if ndk_version == "r15c" then
    .ok ("https://dl.google.com/android/repository/android-ndk-r15c-linux-x86_64.zip",
         "0bf02d4e8b85fd770fd7b9b2cdec57f9441f27a2")
  else if ndk_version == "r16b" then
    .ok ("https://dl.google.com/android/repository/android-ndk-r16b-linux-x86_64.zip",
         "42aa43aae89a50d1c66c3f9fdecd676936da6128")
  else .error "Unknown NDK version"

/-- Lines 241-248: dispatch on the host platform; this runs before any
FileToDownload is constructed, so an error here means the process exits
before any download. -/
def downloadInfo (system ndk_version : String) : Except String (String × String) :=
  if system == "Darwin" then get_darwin_info ndk_version
  else if system == "Linux" then get_linux_info ndk_version
  else .error "Android supported only for Linux and OSX"

/-
Basic lemmas about the prune loops.
-/

theorem finishPrune_eq_ok {r : Except PruneError (Bool × List Entry)}
    {kept : List Entry} : finishPrune r = .ok kept ↔ r = .ok (true, kept) := by
  cases r with
  | error e => simp [finishPrune]
  | ok p =>
    obtain ⟨found, l⟩ := p
    cases found <;> simp [finishPrune]

theorem archLoop_spec (keep : String) :
    ∀ (l : List Entry) (found : Bool),
      archLoop keep l found =
        (if 2 ≤ (cond found 1 0) + keepCount keep l then .error .alreadyFound
         else .ok (((cond found 1 0) + keepCount keep l) == 1,
                   l.filter (fun x => x.name == keep))) := by
  intro l
  induction l with
  | nil => intro found; cases found <;> simp [archLoop, keepCount]
  | cons x xs ih =>
    intro found
    simp only [keepCount, List.countP_cons] at ih ⊢
    simp only [archLoop, List.filter_cons]
    by_cases hk : (x.name == keep) = true
    · cases found with
      | true =>
        rw [if_pos hk, if_pos rfl]
        simp only [hk, cond_true, eq_self_iff_true, if_true]
        split_ifs <;> first | rfl | omega | simp_all
      | false =>
        rw [if_pos hk, if_neg Bool.false_ne_true, ih true]
        simp only [hk, cond_true, cond_false, eq_self_iff_true, if_true,
          Nat.zero_add, Nat.add_comm 1]
        split_ifs <;> first | rfl | omega | simp_all
    · rw [if_neg hk, ih found]
      simp [hk]

theorem gccVersionLoop_spec (keep : String) :
    ∀ (l : List Entry) (found : Bool),
      gccVersionLoop keep l found =
        (if 2 ≤ (cond found 1 0) + keepCount keep l then .error .alreadyFound
         else .ok (((cond found 1 0) + keepCount keep l) == 1,
                   l.filter (fun x => x.name == keep || !x.isDir))) := by
  intro l
  induction l with
  | nil => intro found; cases found <;> simp [gccVersionLoop, keepCount]
  | cons x xs ih =>
    intro found
    simp only [keepCount, List.countP_cons] at ih ⊢
    simp only [gccVersionLoop, List.filter_cons]
    by_cases hk : (x.name == keep) = true
    · cases found with
      | true =>
        rw [if_pos hk, if_pos rfl]
        simp only [hk, cond_true, eq_self_iff_true, if_true, Bool.true_or]
        split_ifs <;> first | rfl | omega | simp_all
      | false =>
        rw [if_pos hk, if_neg Bool.false_ne_true, ih true]
        simp only [hk, cond_true, cond_false, eq_self_iff_true, if_true,
          Bool.true_or, Nat.zero_add, Nat.add_comm 1]
        split_ifs <;> first | rfl | omega | simp_all
    · rw [if_neg hk]
      by_cases hd : x.isDir = true
      · have hnd : ¬((!x.isDir) = true) := by simp [hd]
        rw [if_neg hnd, ih found]
        simp [hk, hd]
      · have hnd : (!x.isDir) = true := by simp at hd; simp [hd]
        have hkf : (x.name == keep) = false := by
          revert hk; cases (x.name == keep) <;> simp
        rw [if_pos hnd, ih found]
        simp [hkf, hnd]
        split_ifs <;> first | rfl | omega | simp_all

theorem apiLoop_spec (keep : String) :
    ∀ (l : List Entry) (found : Bool),
      apiLoop keep l found =
        (if 2 ≤ (cond found 1 0) + apiMatchCount keep l then .error .alreadyFound
         else .ok (((cond found 1 0) + apiMatchCount keep l) == 1,
                   l.filter (fun x => !x.isDir || x.name == keep))) := by
  intro l
  induction l with
  | nil => intro found; cases found <;> simp [apiLoop, apiMatchCount]
  | cons x xs ih =>
    intro found
    simp only [apiMatchCount, List.countP_cons] at ih ⊢
    simp only [apiLoop, List.filter_cons]
    by_cases hd : x.isDir = true
    · have hnd : ¬((!x.isDir) = true) := by simp [hd]
      rw [if_neg hnd]
      by_cases hk : (x.name == keep) = true
      · cases found with
        | true =>
          rw [if_pos hk, if_pos rfl]
          simp only [hk, hd, cond_true, eq_self_iff_true, if_true,
            Bool.true_and, Bool.and_self, Bool.false_or]
          split_ifs <;> first | rfl | omega | simp_all
        | false =>
          rw [if_pos hk, if_neg Bool.false_ne_true, ih true]
          simp only [hk, hd, cond_true, cond_false, eq_self_iff_true, if_true,
            Bool.true_and, Bool.false_or, Nat.zero_add, Nat.add_comm 1]
          split_ifs <;> first | rfl | omega | simp_all
      · rw [if_neg hk, ih found]
        simp [hk, hd]
    · have hnd : (!x.isDir) = true := by simp at hd; simp [hd]
      have hda : x.isDir = false := by simp at hd; exact hd
      rw [if_pos hnd, ih found]
      simp [hda]
      split_ifs <;> first | rfl | omega | simp_all

theorem rmtreeExemptLoop_spec (keep : String) (exempt : String → Bool) :
    ∀ (l : List Entry) (found : Bool), (∀ x ∈ l, x.isDir = true) →
      rmtreeExemptLoop keep exempt l found =
        (if 2 ≤ (cond found 1 0) + keepCount keep l then .error .alreadyFound
         else .ok (((cond found 1 0) + keepCount keep l) == 1,
                   l.filter (fun x => x.name == keep || exempt x.name))) := by
  intro l
  induction l with
  | nil => intro found _; cases found <;> simp [rmtreeExemptLoop, keepCount]
  | cons x xs ih =>
    intro found hdirs
    have hdx : x.isDir = true := hdirs x (List.mem_cons_self x xs)
    have hdxs : ∀ y ∈ xs, y.isDir = true := fun y hy =>
      hdirs y (List.mem_cons_of_mem x hy)
    simp only [keepCount, List.countP_cons] at ih ⊢
    simp only [rmtreeExemptLoop, List.filter_cons]
    by_cases hk : (x.name == keep) = true
    · have hrm : ¬((!(x.name == keep) && !(exempt x.name)) = true) := by
        simp [hk]
      rw [if_neg hrm]
      cases found with
      | true =>
        have hsf : ((x.name == keep) && true) = true := by simp [hk]
        rw [if_pos hsf]
        simp only [hk, cond_true, eq_self_iff_true, if_true, Bool.true_or]
        split_ifs <;> first | rfl | omega | simp_all
      | false =>
        have hsf : ¬(((x.name == keep) && false) = true) := by simp
        rw [if_neg hsf]
        have harg : (false || (x.name == keep)) = true := by simp [hk]
        rw [harg, ih true hdxs]
        simp only [hk, cond_true, cond_false, eq_self_iff_true, if_true,
          Bool.true_or, Nat.zero_add, Nat.add_comm 1]
        split_ifs <;> first | rfl | omega | simp_all
    · by_cases he : exempt x.name = true
      · have hrm : ¬((!(x.name == keep) && !(exempt x.name)) = true) := by
          simp [he]
        rw [if_neg hrm]
        have hsf : ¬(((x.name == keep) && found) = true) := by simp [hk]
        rw [if_neg hsf]
        have harg : (found || (x.name == keep)) = found := by simp [hk]
        have hkf : (x.name == keep) = false := by
          revert hk; cases (x.name == keep) <;> simp
        rw [harg, ih found hdxs]
        simp [hkf, he]
        split_ifs <;> first | rfl | omega | simp_all
      · have hrm : ((!(x.name == keep) && !(exempt x.name)) = true) := by
          simp at hk he; simp [hk, he]
        rw [if_pos hrm, if_pos hdx, ih found hdxs]
        simp [hk, he]

theorem abiLoop_spec (keep : String) :
    ∀ (l : List Entry) (found : Bool), (∀ x ∈ l, x.isDir = true) →
      abiLoop keep l found =
        (if 2 ≤ (cond found 1 0) + keepCount keep l then .error .alreadyFound
         else .ok (((cond found 1 0) + keepCount keep l) == 1,
                   l.filter (fun x => x.name == keep))) := by
  intro l
  induction l with
  | nil => intro found _; cases found <;> simp [abiLoop, keepCount]
  | cons x xs ih =>
    intro found hdirs
    have hdx : x.isDir = true := hdirs x (List.mem_cons_self x xs)
    have hdxs : ∀ y ∈ xs, y.isDir = true := fun y hy =>
      hdirs y (List.mem_cons_of_mem x hy)
    simp only [keepCount, List.countP_cons] at ih ⊢
    simp only [abiLoop, List.filter_cons]
    by_cases hk : (x.name == keep) = true
    · cases found with
      | true =>
        rw [if_pos hk, if_pos rfl]
        simp only [hk, cond_true, eq_self_iff_true, if_true]
        split_ifs <;> first | rfl | omega | simp_all
      | false =>
        rw [if_pos hk, if_neg Bool.false_ne_true, ih true hdxs]
        simp only [hk, cond_true, cond_false, eq_self_iff_true, if_true,
          Nat.zero_add, Nat.add_comm 1]
        split_ifs <;> first | rfl | omega | simp_all
    · rw [if_neg hk, if_pos hdx, ih found hdxs]
      simp [hk]

theorem rmtreeExemptLoop_ok_filter (keep : String) (exempt : String → Bool) :
    ∀ (l : List Entry) (found f : Bool) (r : List Entry),
      rmtreeExemptLoop keep exempt l found = .ok (f, r) →
      r = l.filter (fun x => x.name == keep || exempt x.name) := by
  intro l
  induction l with
  | nil =>
    intro found f r h
    simp only [rmtreeExemptLoop, Except.ok.injEq, Prod.mk.injEq] at h
    simp [← h.2]
  | cons x xs ih =>
    intro found f r h
    simp only [rmtreeExemptLoop] at h
    rw [List.filter_cons]
    split at h
    · next hrm =>
      split at h
      · next =>
        have hpred : ¬((x.name == keep || exempt x.name) = true) := by
          revert hrm; cases (x.name == keep) <;> cases exempt x.name <;> simp
        rw [if_neg hpred]
        exact ih found f r h
      · next => simp at h
    · next hrm =>
      have hpred : (x.name == keep || exempt x.name) = true := by
        revert hrm; cases (x.name == keep) <;> cases exempt x.name <;> simp
      rw [if_pos hpred]
      split at h
      · simp at h
      · rcases hmatch : rmtreeExemptLoop keep exempt xs (found || (x.name == keep))
          with e | p
        · rw [hmatch] at h; simp at h
        · obtain ⟨fx, rest⟩ := p
          rw [hmatch] at h
          simp only [Except.ok.injEq, Prod.mk.injEq] at h
          rw [← h.2]
          exact congrArg (fun t => x :: t) (ih _ fx rest hmatch)

theorem abiLoop_ok_filter (keep : String) :
    ∀ (l : List Entry) (found f : Bool) (r : List Entry),
      abiLoop keep l found = .ok (f, r) →
      r = l.filter (fun x => x.name == keep) := by
  intro l
  induction l with
  | nil =>
    intro found f r h
    simp only [abiLoop, Except.ok.injEq, Prod.mk.injEq] at h
    simp [← h.2]
  | cons x xs ih =>
    intro found f r h
    simp only [abiLoop] at h
    rw [List.filter_cons]
    split at h
    · next hk =>
      rw [if_pos hk]
      split at h
      · simp at h
      · rcases hmatch : abiLoop keep xs true with e | p
        · rw [hmatch] at h; simp at h
        · obtain ⟨fx, rest⟩ := p
          rw [hmatch] at h
          simp only [Except.ok.injEq, Prod.mk.injEq] at h
          rw [← h.2]
          exact congrArg (fun t => x :: t) (ih true fx rest hmatch)
    · next hk =>
      rw [if_neg hk]
      split at h
      · exact ih found f r h
      · simp at h

theorem apiMatchCount_eq_keepCount {keep : String} {l : List Entry}
    (hd : ∀ x ∈ l, x.isDir = true) : apiMatchCount keep l = keepCount keep l := by
  unfold apiMatchCount keepCount
  apply List.countP_congr
  intro a ha
  simp [hd a ha]

theorem finishPrune_count_cases (count : Nat) (flt : List Entry)
    (res : Except PruneError (List Entry))
    (h : res = finishPrune (if 2 ≤ count then .error .alreadyFound
          else .ok (count == 1, flt))) :
    (count = 0 → res = .error .notFound) ∧
    (2 ≤ count → res = .error .alreadyFound) ∧
    ((∃ r, res = .ok r) ↔ count = 1) := by
  subst h
  match count with
  | 0 => simp [finishPrune]
  | 1 => simp [finishPrune]
  | n + 2 =>
    have hge : 2 ≤ n + 2 := by omega
    rw [if_pos hge]
    simp [finishPrune]

/-
The claims.
-/

/-- C4: stl_suffix_by_name is a pure total function on its fixed ten-element
domain, mapping system and system_re to system, the gabi++ pair to gabi++,
the stlport pair to stlport, the gnustl pair to gnu-libstdc++ and the c++
pair to llvm-libc++, and every input outside the table deterministically
produces the unknown-selector failure. -/
theorem stl_suffix_by_name_table :
    stl_suffix_by_name "system" = .ok "system" ∧
    stl_suffix_by_name "system_re" = .ok "system" ∧
    stl_suffix_by_name "gabi++_shared" = .ok "gabi++" ∧
    stl_suffix_by_name "gabi++_static" = .ok "gabi++" ∧
    stl_suffix_by_name "stlport_shared" = .ok "stlport" ∧
    stl_suffix_by_name "stlport_static" = .ok "stlport" ∧
    stl_suffix_by_name "gnustl_shared" = .ok "gnu-libstdc++" ∧
    stl_suffix_by_name "gnustl_static" = .ok "gnu-libstdc++" ∧
    stl_suffix_by_name "c++_static" = .ok "llvm-libc++" ∧
    stl_suffix_by_name "c++_shared" = .ok "llvm-libc++" ∧
    ∀ s, s ∉ stlNameTable →
      stl_suffix_by_name s = .error (.unknownSelector s) := by
  refine ⟨rfl, rfl, rfl, rfl, rfl, rfl, rfl, rfl, rfl, rfl, ?_⟩
  intro s hs
  simp [stlNameTable] at hs
  obtain ⟨h1, h2, h3, h4, h5, h6, h7, h8, h9, h10⟩ := hs
  simp [stl_suffix_by_name, h1, h2, h3, h4, h5, h6, h7, h8, h9, h10]

/-- Witness for C4: a name outside the table fails. -/
theorem stl_suffix_by_name_table_witness :
    stl_suffix_by_name "banana" = .error (.unknownSelector "banana") :=
  stl_suffix_by_name_table.2.2.2.2.2.2.2.2.2.2 "banana" (by decide)

/-- C3: on success the archive name is the concatenation, in fixed order, of
the kit version, the toolchain, the STL suffix, when the STL is
gnu-libstdc++ also the compiler version and ABI, the API level prefixed with
android-, the architecture prefixed with arch-, and the platform name,
ending in .tar.gz; in particular version v1, toolchain t1, stl s1, api 9,
arch arm on a Linux host gives the expected literal name. -/
theorem output_archive_name_shape :
    (∀ v tc s cv a api arch sys, s ≠ "gnu-libstdc++" →
      outputArchiveName v tc s cv a api arch sys =
        "android-ndk-" ++ v ++ "-" ++ tc ++ "-" ++ s ++ "-" ++
          ("android-" ++ api) ++ "-" ++ ("arch-" ++ arch) ++ "-" ++ sys ++
          ".tar.gz") ∧
    (∀ v tc cv a api arch sys,
      outputArchiveName v tc "gnu-libstdc++" cv a api arch sys =
        "android-ndk-" ++ v ++ "-" ++ tc ++ "-" ++ "gnu-libstdc++" ++ "-" ++
          cv ++ "-" ++ a ++ "-" ++ ("android-" ++ api) ++ "-" ++
          ("arch-" ++ arch) ++ "-" ++ sys ++ ".tar.gz") ∧
    outputArchiveName "v1" "t1" "s1" "" "" "9" "arm" "Linux" =
      "android-ndk-v1-t1-s1-android-9-arch-arm-Linux.tar.gz" := by
  refine ⟨?_, ?_, rfl⟩
  · intro v tc s cv a api arch sys h
    have hb : ¬((s == "gnu-libstdc++") = true) := by simp [h]
    simp only [outputArchiveName, if_neg hb]
  · intro v tc cv a api arch sys
    have hb : ("gnu-libstdc++" == "gnu-libstdc++") = true := rfl
    simp only [outputArchiveName, if_pos hb]

/-- Witness for C3: the non-gnu-libstdc++ branch at concrete arguments. -/
theorem output_archive_name_shape_witness :
    outputArchiveName "v1" "t1" "s1" "x" "y" "9" "arm" "Linux" =
      "android-ndk-" ++ "v1" ++ "-" ++ "t1" ++ "-" ++ "s1" ++ "-" ++
        ("android-" ++ "9") ++ "-" ++ ("arch-" ++ "arm") ++ "-" ++ "Linux" ++
        ".tar.gz" :=
  output_archive_name_shape.1 "v1" "t1" "s1" "x" "y" "9" "arm" "Linux"
    (by decide)

/-- C10: the set of kit versions that can be processed depends on the host
platform even though the CLI accepts one closed enumeration: r16b is an
accepted ndk-version choice, yet the Darwin dispatch fails with Unknown NDK
version before any download is constructed, while on Linux all four choices
resolve to a URL and checksum. -/
theorem ndk_version_platform_support :
    ndkVersionChoices.contains "r16b" = true ∧
    downloadInfo "Darwin" "r16b" = .error "Unknown NDK version" ∧
    downloadInfo "Linux" "r10e" =
      .ok ("http://dl.google.com/android/ndk/android-ndk-r10e-linux-x86_64.bin",
           "c685e5f106f8daa9b5449d0a4f21ee8c0afcb2f6") ∧
    downloadInfo "Linux" "r11c" =
      .ok ("http://dl.google.com/android/repository/android-ndk-r11c-linux-x86_64.zip",
           "de5ce9bddeee16fb6af2b9117e9566352aa7e279") ∧
    downloadInfo "Linux" "r15c" =
      .ok ("https://dl.google.com/android/repository/android-ndk-r15c-linux-x86_64.zip",
           "0bf02d4e8b85fd770fd7b9b2cdec57f9441f27a2") ∧
    downloadInfo "Linux" "r16b" =
      .ok ("https://dl.google.com/android/repository/android-ndk-r16b-linux-x86_64.zip",
           "42aa43aae89a50d1c66c3f9fdecd676936da6128") :=
  ⟨rfl, rfl, rfl, rfl, rfl, rfl⟩

/-- C9: when the compiler-version flag equals clang every occurrence of
-clang in the toolchain argument is replaced by -4.9, and that substituted
value is what the toolchains listing test and the archive name receive; for
any other compiler-version value the argument is used verbatim. -/
theorem clang_toolchain_replacement :
    (∀ t, effectiveToolchain (some "clang") t = t.replace "-clang" "-4.9") ∧
    (∀ cv t, cv ≠ some "clang" → effectiveToolchain cv t = t) ∧
    (∀ cv t l, toolchainListingTest cv t l =
      l.contains (effectiveToolchain cv t)) ∧
    (∀ v t s cv a api arch sys,
      outputArchiveName v (effectiveToolchain (some "clang") t) s cv a api
          arch sys =
        outputArchiveName v (t.replace "-clang" "-4.9") s cv a api arch sys) := by
  refine ⟨fun t => rfl, ?_, fun cv t l => rfl, fun v t s cv a api arch sys => rfl⟩
  intro cv t h
  have hb : ¬((cv == some "clang") = true) := by
    intro hb
    exact h (eq_of_beq hb)
  simp [effectiveToolchain, hb]

/-- Witness for C9: a non-clang compiler version leaves the argument
untouched. -/
theorem clang_toolchain_replacement_witness :
    effectiveToolchain none "arm-linux-androideabi-clang" =
      "arm-linux-androideabi-clang" :=
  clang_toolchain_replacement.2.1 none "arm-linux-androideabi-clang"
    (by decide)

/-- C6: byte counts are rendered with binary units chosen by strict
thresholds (below 1024 B, below 1024 squared KB, below 1024 cubed MB,
otherwise GB) and two decimal places; in particular 500 renders as
"500.00 B", 2048 as "2.00 KB" and 1572864 as "1.50 MB". -/
theorem human_size_units :
    (∀ size : Nat, size < 1024 → (human_readable_size size).2 = "B") ∧
    (∀ size : Nat, 1024 ≤ size → size < 1024 * 1024 →
      (human_readable_size size).2 = "KB") ∧
    (∀ size : Nat, 1024 * 1024 ≤ size → size < 1024 * (1024 * 1024) →
      (human_readable_size size).2 = "MB") ∧
    (∀ size : Nat, 1024 * (1024 * 1024) ≤ size →
      (human_readable_size size).2 = "GB") ∧
    object_printable_size 500 = "500.00 B" ∧
    object_printable_size 2048 = "2.00 KB" ∧
    object_printable_size 1572864 = "1.50 MB" := by
  refine ⟨?_, ?_, ?_, ?_, ?_, ?_, ?_⟩
  · intro size h
    simp [human_readable_size, h]
  · intro size h1 h2
    have h3 : ¬size < 1024 := by omega
    simp [human_readable_size, h3, h2]
  · intro size h1 h2
    have h3 : ¬size < 1024 := by omega
    have h4 : ¬size < 1024 * 1024 := by omega
    simp [human_readable_size, h3, h4, h2]
  · intro size h1
    have h3 : ¬size < 1024 := by omega
    have h4 : ¬size < 1024 * 1024 := by omega
    have h5 : ¬size < 1024 * (1024 * 1024) := by omega
    simp [human_readable_size, h3, h4, h5]
  · have h1 : human_readable_size 500 = ((500 : ℚ), "B") := by
      norm_num [human_readable_size]
    have h2 : Int.floor ((500 : ℚ) * 100 + 1 / 2) = 50000 := by
      norm_num [Int.floor_eq_iff]
    simp only [object_printable_size, h1, formatFixed2, h2]
    rfl
  · have h1 : human_readable_size 2048 = ((2 : ℚ), "KB") := by
      norm_num [human_readable_size]
    have h2 : Int.floor ((2 : ℚ) * 100 + 1 / 2) = 200 := by
      norm_num [Int.floor_eq_iff]
    simp only [object_printable_size, h1, formatFixed2, h2]
    rfl
  · have h1 : human_readable_size 1572864 = ((3 / 2 : ℚ), "MB") := by
      norm_num [human_readable_size]
    have h2 : Int.floor ((3 / 2 : ℚ) * 100 + 1 / 2) = 150 := by
      norm_num [Int.floor_eq_iff]
    simp only [object_printable_size, h1, formatFixed2, h2]
    rfl

/-- Witness for C6: the four unit thresholds at concrete sizes. -/
theorem human_size_units_witness :
    (human_readable_size 500).2 = "B" ∧
    (human_readable_size 2048).2 = "KB" ∧
    (human_readable_size 1572864).2 = "MB" ∧
    (human_readable_size 1073741824).2 = "GB" :=
  ⟨human_size_units.1 500 (by decide),
   human_size_units.2.1 2048 (by decide) (by decide),
   human_size_units.2.2.1 1572864 (by decide) (by decide),
   human_size_units.2.2.2.1 1073741824 (by decide)⟩

/-- C7 fails as stated: for the API dimension a missing directory does not
merely produce a warning; the run terminates at the existence check itself,
even on a listing that does contain the kept entry. -/
theorem api_existence_check_exits :
    apiCheck false "android-9" ["android-9"] =
      .exited "Directory not found (--api-level)" ∧
    List.contains ["android-9"] "android-9" = true :=
  ⟨rfl, rfl⟩

/-- C7 amended: only the toolchain and STL dimensions print a warning and
continue when the selected directory does not exist, terminating solely
through the separate listing-membership check; the compiler-version, ABI,
API-level and architecture dimensions terminate at the existence check
itself. -/
theorem existence_check_behavior :
    (∀ tc l, l.contains tc = true →
      toolchainCheck false tc l =
        .proceed ["Toolchain not exists (set by --toolchain)"]) ∧
    (∀ tc l d, toolchainCheck d tc l = .exited "Toolchain is not in list" ↔
      l.contains tc = false) ∧
    (∀ s l, l.contains s = true →
      stlCheck false s l = .proceed ["STL not exists (set by --stl)"]) ∧
    (∀ s l d, stlCheck d s l = .exited "STL is not in list" ↔
      l.contains s = false) ∧
    (∀ g l, gccVersionCheck false g l =
      .exited "Directory not exists (--compiler-version)") ∧
    (∀ a l, abiCheck false a l = .exited "Directory not exists (--abi-name)") ∧
    (∀ a l, apiCheck false a l = .exited "Directory not found (--api-level)") ∧
    (∀ a l, archCheck false a l =
      .exited "Directory not found (--arch-name)") := by
  refine ⟨?_, ?_, ?_, ?_, fun g l => rfl, fun a l => rfl, fun a l => rfl,
    fun a l => rfl⟩
  · intro tc l h
    simp [toolchainCheck, h]
    simpa using h
  · intro tc l d
    by_cases h : l.contains tc <;> simp [toolchainCheck, h]
  · intro s l h
    simp [stlCheck, h]
    simpa using h
  · intro s l d
    by_cases h : l.contains s <;> simp [stlCheck, h]

/-- Witness for C7: the toolchain check only warns when the directory is
missing but the listing has the entry. -/
theorem existence_check_behavior_witness :
    toolchainCheck false "t1" ["t1"] =
      .proceed ["Toolchain not exists (set by --toolchain)"] :=
  existence_check_behavior.1 "t1" ["t1"] (by decide)

/-- C8: the download step is idempotent: when the local file already matches
the expected SHA-1 no network access happens and the state is unchanged, and
after any successful download a further call touches nothing. -/
theorem download_idempotent :
    (∀ sha1 expected net st, hash_match sha1 expected st = true →
      download sha1 expected net st = .ok st false) ∧
    (∀ sha1 expected net net2 st st2 b,
      download sha1 expected net st = .ok st2 b →
      download sha1 expected net2 st2 = .ok st2 false) := by
  constructor
  · intro sha1 expected net st h
    simp [download, h]
  · intro sha1 expected net net2 st st2 b h
    have hm : hash_match sha1 expected st2 = true := by
      by_cases hh : hash_match sha1 expected st = true
      · simp [download, hh] at h
        rw [← h.1]
        exact hh
      · simp [download, hh] at h
        rcases hr : real_file_download net 0 3 with _ | stx
        · rw [hr] at h
          simp at h
        · rw [hr] at h
          by_cases h2 : hash_match sha1 expected stx = true
          · simp [h2] at h
            rw [← h.1]
            exact h2
          · simp [h2] at h
    simp [download, hm]

/-- Witness for C8: a state whose file already matches is left alone. -/
theorem download_idempotent_witness :
    download (fun s => toString s.length) "1" (fun _ => none)
      { localFile := some "a" } = .ok { localFile := some "a" } false :=
  download_idempotent.1 (fun s => toString s.length) "1" (fun _ => none)
    { localFile := some "a" } (by rfl)

/-- C1 fails as stated: the API prune succeeds on a listing holding a plain
file next to the kept directory, yet the plain file survives even though it
does not equal the kept entry and the API dimension has no exemptions. -/
theorem apiPrune_plain_file_survives :
    apiPrune "android-9" [⟨"android-9", true⟩, ⟨"repo.prop", false⟩] =
      .ok [⟨"android-9", true⟩, ⟨"repo.prop", false⟩] ∧
    (Entry.mk "repo.prop" false).name ≠ "android-9" :=
  ⟨rfl, by decide⟩

/-- C1 amended: after a successful prune the surviving listing is exactly
the kept entry plus the dimension exemptions (llvm for the toolchain prune
under clang, llvm-libc++abi for the STL prune under llvm-libc++, none for
the others), except that the compiler-version and API-level prunes skip
plain files, so non-matching plain files survive there as well; the
architecture prune removes plain files too. -/
theorem prune_success_listing :
    (∀ cv tc l r, toolchainPrune cv tc l = .ok r →
      r = l.filter (fun x => x.name == tc ||
        (cv == some "clang" && x.name == "llvm"))) ∧
    (∀ s l r, stlPrune s l = .ok r →
      r = l.filter (fun x => x.name == s ||
        (s == "llvm-libc++" && x.name == "llvm-libc++abi"))) ∧
    (∀ g l r, gccVersionPrune g l = .ok r →
      r = l.filter (fun x => x.name == g || !x.isDir)) ∧
    (∀ a l r, abiPrune a l = .ok r → r = l.filter (fun x => x.name == a)) ∧
    (∀ a l r, apiPrune a l = .ok r →
      r = l.filter (fun x => !x.isDir || x.name == a)) ∧
    (∀ a l r, archPrune a l = .ok r →
      r = l.filter (fun x => x.name == a)) := by
  refine ⟨?_, ?_, ?_, ?_, ?_, ?_⟩
  · intro cv tc l r h
    unfold toolchainPrune at h
    rw [finishPrune_eq_ok] at h
    exact rmtreeExemptLoop_ok_filter tc _ l false true r h
  · intro s l r h
    unfold stlPrune at h
    rw [finishPrune_eq_ok] at h
    exact rmtreeExemptLoop_ok_filter s _ l false true r h
  · intro g l r h
    unfold gccVersionPrune at h
    rw [finishPrune_eq_ok, gccVersionLoop_spec] at h
    split at h
    · simp at h
    · simp only [Except.ok.injEq, Prod.mk.injEq] at h
      exact h.2.symm
  · intro a l r h
    unfold abiPrune at h
    rw [finishPrune_eq_ok] at h
    exact abiLoop_ok_filter a l false true r h
  · intro a l r h
    unfold apiPrune at h
    rw [finishPrune_eq_ok, apiLoop_spec] at h
    split at h
    · simp at h
    · simp only [Except.ok.injEq, Prod.mk.injEq] at h
      exact h.2.symm
  · intro a l r h
    unfold archPrune at h
    rw [finishPrune_eq_ok, archLoop_spec] at h
    split at h
    · simp at h
    · simp only [Except.ok.injEq, Prod.mk.injEq] at h
      exact h.2.symm

/-- Witness for C1 amended: the architecture prune at a concrete listing
with a directory and a plain file. -/
theorem prune_success_listing_witness :
    [Entry.mk "arch-arm" true] =
      List.filter (fun x => x.name == "arch-arm")
        [Entry.mk "arch-arm" true, Entry.mk "arch-x86" true,
         Entry.mk "f.txt" false] :=
  prune_success_listing.2.2.2.2.2 "arch-arm"
    [⟨"arch-arm", true⟩, ⟨"arch-x86", true⟩, ⟨"f.txt", false⟩]
    [⟨"arch-arm", true⟩] rfl

/-- C2 fails as stated: in the toolchain dimension the kept entry occurs
exactly once, yet the prune neither succeeds nor raises the two specified
errors, because shutil.rmtree fails on a plain-file sibling. -/
theorem toolchainPrune_file_sibling_fails :
    keepCount "t1" [⟨"f", false⟩, ⟨"t1", true⟩] = 1 ∧
    toolchainPrune none "t1" [⟨"f", false⟩, ⟨"t1", true⟩] =
      .error (.rmtreeNotADir "f") :=
  ⟨rfl, rfl⟩

/-- C2 amended: provided every enumerated sibling is a directory, each
prune fails with the not-found exit when the kept entry is absent from the
listing, fails with the already-found exit when it occurs more than once,
and succeeds exactly when it occurs exactly once. -/
theorem prune_outcome_by_keep_count :
    (∀ cv tc l, (∀ x ∈ l, x.isDir = true) →
      (keepCount tc l = 0 → toolchainPrune cv tc l = .error .notFound) ∧
      (2 ≤ keepCount tc l → toolchainPrune cv tc l = .error .alreadyFound) ∧
      ((∃ r, toolchainPrune cv tc l = .ok r) ↔ keepCount tc l = 1)) ∧
    (∀ s l, (∀ x ∈ l, x.isDir = true) →
      (keepCount s l = 0 → stlPrune s l = .error .notFound) ∧
      (2 ≤ keepCount s l → stlPrune s l = .error .alreadyFound) ∧
      ((∃ r, stlPrune s l = .ok r) ↔ keepCount s l = 1)) ∧
    (∀ g l, (∀ x ∈ l, x.isDir = true) →
      (keepCount g l = 0 → gccVersionPrune g l = .error .notFound) ∧
      (2 ≤ keepCount g l → gccVersionPrune g l = .error .alreadyFound) ∧
      ((∃ r, gccVersionPrune g l = .ok r) ↔ keepCount g l = 1)) ∧
    (∀ a l, (∀ x ∈ l, x.isDir = true) →
      (keepCount a l = 0 → abiPrune a l = .error .notFound) ∧
      (2 ≤ keepCount a l → abiPrune a l = .error .alreadyFound) ∧
      ((∃ r, abiPrune a l = .ok r) ↔ keepCount a l = 1)) ∧
    (∀ a l, (∀ x ∈ l, x.isDir = true) →
      (keepCount a l = 0 → apiPrune a l = .error .notFound) ∧
      (2 ≤ keepCount a l → apiPrune a l = .error .alreadyFound) ∧
      ((∃ r, apiPrune a l = .ok r) ↔ keepCount a l = 1)) ∧
    (∀ a l, (∀ x ∈ l, x.isDir = true) →
      (keepCount a l = 0 → archPrune a l = .error .notFound) ∧
      (2 ≤ keepCount a l → archPrune a l = .error .alreadyFound) ∧
      ((∃ r, archPrune a l = .ok r) ↔ keepCount a l = 1)) := by
  refine ⟨?_, ?_, ?_, ?_, ?_, ?_⟩
  · intro cv tc l hd
    apply finishPrune_count_cases
    unfold toolchainPrune
    rw [rmtreeExemptLoop_spec tc _ l false hd]
    simp only [cond_false, Nat.zero_add]
    rfl
  · intro s l hd
    apply finishPrune_count_cases
    unfold stlPrune
    rw [rmtreeExemptLoop_spec s _ l false hd]
    simp only [cond_false, Nat.zero_add]
    rfl
  · intro g l hd
    apply finishPrune_count_cases
    unfold gccVersionPrune
    rw [gccVersionLoop_spec g l false]
    simp only [cond_false, Nat.zero_add]
    rfl
  · intro a l hd
    apply finishPrune_count_cases
    unfold abiPrune
    rw [abiLoop_spec a l false hd]
    simp only [cond_false, Nat.zero_add]
    rfl
  · intro a l hd
    apply finishPrune_count_cases
    unfold apiPrune
    rw [apiLoop_spec a l false, apiMatchCount_eq_keepCount hd]
    simp only [cond_false, Nat.zero_add]
    rfl
  · intro a l hd
    apply finishPrune_count_cases
    unfold archPrune
    rw [archLoop_spec a l false]
    simp only [cond_false, Nat.zero_add]
    rfl

/-- Witness for C2 amended: a directory-only listing missing the kept
toolchain makes the toolchain prune exit with the not-found error. -/
theorem prune_outcome_by_keep_count_witness :
    toolchainPrune none "t1" [Entry.mk "x" true] = .error .notFound :=
  (prune_outcome_by_keep_count.1 none "t1" [⟨"x", true⟩] (by decide)).1 rfl

/-- C5: entries on a dimension exemption list survive that prune even
though they differ from the kept entry: llvm survives the toolchain prune
when the compiler-version selector is clang, and llvm-libc++abi survives
the STL prune when the chosen standard library is llvm-libc++. -/
theorem exempt_dirs_survive_prune :
    (∀ tc l r e, toolchainPrune (some "clang") tc l = .ok r →
      e ∈ l → e.name = "llvm" → e ∈ r) ∧
    (∀ l r e, stlPrune "llvm-libc++" l = .ok r →
      e ∈ l → e.name = "llvm-libc++abi" → e ∈ r) := by
  constructor
  · intro tc l r e h he hn
    unfold toolchainPrune at h
    rw [finishPrune_eq_ok] at h
    have hr := rmtreeExemptLoop_ok_filter tc _ l false true r h
    subst hr
    refine List.mem_filter.mpr ⟨he, ?_⟩
    simp [hn]
  · intro l r e h he hn
    unfold stlPrune at h
    rw [finishPrune_eq_ok] at h
    have hr := rmtreeExemptLoop_ok_filter "llvm-libc++" _ l false true r h
    subst hr
    refine List.mem_filter.mpr ⟨he, ?_⟩
    simp [hn]

/-- Witness for C5: llvm next to the kept toolchain survives a concrete
clang-mode toolchain prune. -/
theorem exempt_dirs_survive_prune_witness :
    Entry.mk "llvm" true ∈ [Entry.mk "t1" true, Entry.mk "llvm" true] :=
  exempt_dirs_survive_prune.1 "t1" [⟨"t1", true⟩, ⟨"llvm", true⟩]
    [⟨"t1", true⟩, ⟨"llvm", true⟩] ⟨"llvm", true⟩ rfl (by decide) rfl

end AndroidNdk
